import Mathlib

/-!
Verification of the Ontario map application backend (src/app.py).

The Python source is shallowly embedded: pure functions become Lean
functions over `String`, `ℚ` and `Option`; the Nominatim geocoding
collaborator becomes an explicit oracle argument `String → GeoResp`; the
GeoJSON load becomes an explicit `Except` argument; Python floats are
modelled as exact rationals (the tokens accepted by `parse_coordinates`
are short decimal literals, where IEEE rounding is immaterial to the
algorithmic claims under study).  Python string helpers (`strip`,
`replace`, `split`, `lower`, `float`) are embedded as executable
character-list functions so every definition evaluates in the kernel.
-/

/-! ## Python string primitives -/

/-- Whitespace as Python `str.strip` and `str.split` treat it
(ASCII space, tab, newline, carriage return suffice for this model). -/
def pySpace (c : Char) : Bool :=
  c = ' ' || c = '\t' || c = '\n' || c = '\r'

/-- Python `s.strip()`: drop leading and trailing whitespace. -/
def pyStrip (s : String) : String :=
  String.mk (((s.toList.dropWhile pySpace).reverse.dropWhile pySpace).reverse)

/-- Python `s.replace(",", "")`: remove every comma. -/
def removeCommas (s : String) : String :=
  String.mk (s.toList.filter (fun c => c ≠ ','))

/-- Python `s.lower()` (ASCII). -/
def pyLower (s : String) : String :=
  String.mk (s.toList.map Char.toLower)

/-- Grouping of a character list by a separator predicate, keeping empty
groups; the groups of Python `str.split` before empties are dropped. -/
def splitGroups (p : Char → Bool) : List Char → List (List Char)
  | [] => [[]]
  | c :: cs =>
    let r := splitGroups p cs
    if p c then [] :: r
    else
      match r with
      | g :: gs => (c :: g) :: gs
      | [] => [[c]]

/-- Python `s.split()` with no argument: split on whitespace runs,
discarding empty pieces. -/
def pySplitWs (s : String) : List String :=
  ((splitGroups pySpace s.toList).filter (fun g => g ≠ [])).map String.mk

/-- Split a character list on the two-character separator ", "
(non-overlapping, left to right), as Python `s.split(', ')` does. -/
def splitSepCS : List Char → List (List Char)
  | [] => [[]]
  | ',' :: ' ' :: rest => [] :: splitSepCS rest
  | c :: rest =>
    match splitSepCS rest with
    | g :: gs => (c :: g) :: gs
    | [] => [[c]]

/-- Python `s.split(', ')`. -/
def pySplitCS (s : String) : List String :=
  (splitSepCS s.toList).map String.mk

/-- Python `", ".join(parts)`. -/
def joinCS : List String → String
  | [] => ""
  | [x] => x
  | x :: xs => x ++ ", " ++ joinCS xs

/-! ## Python float parsing for the tokens of `parse_coordinates`

The tokens handed to Python `float()` by `parse_coordinates` consist only
of digits, `.` and `-` (everything else was replaced by a space).  On such
strings `float()` accepts exactly an optional leading minus sign followed
by digits with at most one decimal point and at least one digit; the value
is the exact decimal it denotes, modelled as a rational. -/

/-- Numeric value of a digit list (only used when all characters are
digits). -/
def digitsVal (cs : List Char) : Nat :=
  cs.foldl (fun a c => 10 * a + (c.toNat - 48)) 0

/-- Python `float(token)` for tokens drawn from digits, `.` and `-`:
`some` exact rational value, or `none` when `float()` raises
`ValueError`. -/
def pyFloat? (t : String) : Option ℚ :=
  let cs := t.toList
  let neg := cs.headD ' ' = '-'
  let body := if neg then cs.tail else cs
  let sign : Int := if neg then -1 else 1
  if body.all (fun c => c.isDigit || c = '.') = false then none
  else
    match splitGroups (fun c => c = '.') body with
    | [ip] =>
      if ip = [] then none
      else some (mkRat (sign * digitsVal ip) 1)
    | [ip, fp] =>
      if ip = [] ∧ fp = [] then none
      else
        some (mkRat (sign * (digitsVal ip * 10 ^ fp.length + digitsVal fp))
          (10 ^ fp.length))
    | _ => none

/-! ## `parse_coordinates` (src/app.py lines 40-63) -/

/-- The cleaned input of `parse_coordinates`:
`re.sub(r'[^\d\.-]', ' ', location_input.strip())`. -/
def cleanCoordInput (s : String) : String :=
  String.mk ((pyStrip s).toList.map
    (fun c => if c.isDigit || c = '.' || c = '-' then c else ' '))

/-- The whitespace-separated tokens `parse_coordinates` works on. -/
def coordTokens (s : String) : List String :=
  pySplitWs (cleanCoordInput s)

/-- Embedding of `parse_coordinates`: two tokens, both parse as floats,
ranges checked, else `None`. -/
def parse_coordinates (location_input : String) : Option (ℚ × ℚ) :=
  match coordTokens location_input with
  | [t1, t2] =>
    match pyFloat? t1, pyFloat? t2 with
    | some lat, some lon =>
      if -90 ≤ lat ∧ lat ≤ 90 ∧ -180 ≤ lon ∧ lon ≤ 180 then some (lat, lon)
      else none
    | _, _ => none
  | _ => none

/-- The success condition of claim C5, written from the claim's words:
stripping all characters except digits, decimal points and minus signs
leaves exactly two whitespace-separated tokens, both parse as decimal
numbers, the first (latitude) lies in [-90, 90] and the second
(longitude) in [-180, 180]. -/
def c5SpecAccepts (s : String) (lat lon : ℚ) : Prop :=
  ∃ t1 t2, coordTokens s = [t1, t2] ∧
    pyFloat? t1 = some lat ∧ pyFloat? t2 = some lon ∧
    -90 ≤ lat ∧ lat ≤ 90 ∧ -180 ≤ lon ∧ lon ≤ 180

/-- Helper: the token-level core of `parse_coordinates`. -/
def parseTokens : List String → Option (ℚ × ℚ)
  | [t1, t2] =>
    match pyFloat? t1, pyFloat? t2 with
    | some lat, some lon =>
      if -90 ≤ lat ∧ lat ≤ 90 ∧ -180 ≤ lon ∧ lon ≤ 180 then some (lat, lon)
      else none
    | _, _ => none
  | _ => none

theorem parse_coordinates_eq_parseTokens (s : String) :
    parse_coordinates s = parseTokens (coordTokens s) := by
  unfold parse_coordinates parseTokens
  rcases coordTokens s with _ | ⟨t1, _ | ⟨t2, _ | _⟩⟩ <;> rfl

/-- C5: `parse_coordinates` succeeds exactly when cleaning leaves two
tokens that both parse as decimal numbers within the latitude and
longitude ranges, returning that exact pair; otherwise it returns `none`
(it is a total function, so no error is raised). -/
theorem c5_parse_coordinates_iff_two_valid_tokens (s : String) :
    (∀ lat lon, parse_coordinates s = some (lat, lon) ↔ c5SpecAccepts s lat lon) ∧
    ((∀ lat lon, ¬ c5SpecAccepts s lat lon) → parse_coordinates s = none) := by
  have hmain : ∀ lat lon,
      parse_coordinates s = some (lat, lon) ↔ c5SpecAccepts s lat lon := by
    intro lat lon
    rw [parse_coordinates_eq_parseTokens]
    unfold c5SpecAccepts
    rcases h : coordTokens s with _ | ⟨t1, _ | ⟨t2, _ | _⟩⟩ <;>
      simp only [parseTokens, h]
    · simp
    · simp
    · cases h1 : pyFloat? t1 with
      | none => simp [h1]
      | some a =>
        cases h2 : pyFloat? t2 with
        | none => simp [h1, h2]
        | some b =>
          by_cases hr : -90 ≤ a ∧ a ≤ 90 ∧ -180 ≤ b ∧ b ≤ 180
          · simp only [h1, h2, if_pos hr, Option.some.injEq, Prod.mk.injEq]
            constructor
            · rintro ⟨rfl, rfl⟩
              exact ⟨t1, t2, rfl, h1, h2, hr.1, hr.2.1, hr.2.2.1, hr.2.2.2⟩
            · rintro ⟨u1, u2, he, hf1, hf2, _⟩
              obtain ⟨rfl, rfl⟩ : t1 = u1 ∧ t2 = u2 := by
                simpa using he
              rw [h1] at hf1
              rw [h2] at hf2
              exact ⟨by simpa using hf1, by simpa using hf2⟩
          · simp only [h1, h2, if_neg hr]
            constructor
            · intro hc
              exact absurd hc (by simp)
            · rintro ⟨u1, u2, he, hf1, hf2, r1, r2, r3, r4⟩
              obtain ⟨rfl, rfl⟩ : t1 = u1 ∧ t2 = u2 := by
                simpa using he
              rw [h1] at hf1
              rw [h2] at hf2
              obtain rfl : a = lat := by simpa using hf1
              obtain rfl : b = lon := by simpa using hf2
              exact absurd ⟨r1, r2, r3, r4⟩ hr
    · simp
  refine ⟨hmain, fun hnone => ?_⟩
  cases hp : parse_coordinates s with
  | none => rfl
  | some p =>
    exact absurd ((hmain p.1 p.2).mp (by rw [hp])) (hnone p.1 p.2)

/-! ## `calculate_funding_eligibility` (src/app.py lines 178-245) -/

/-- The result dictionary of `calculate_funding_eligibility`. -/
structure FundingInfo where
  applicant_type : String
  applicant_type_display : String
  municipality_population : Option String
  municipality_population_display : String
  funding_percentage : Nat
  region : Option String
deriving DecidableEq, Repr

/-- The `applicant_type_displays` dictionary (lookup, `none` when the key
is absent). -/
def applicantTypeDisplays (t : String) : Option String :=
  if t = "indigenous" then some "Indigenous community or business"
  else if t = "municipality" then some "Municipalities"
  else if t = "business" then
    some "Businesses, not for profit corporations, and broader public sector"
  else none

/-- The `municipality_population_displays` dictionary. -/
def municipalityPopulationDisplays (p : String) : Option String :=
  if p = "below-170k" then some "Below 170,000"
  else if p = "above-170k" then some "Above 170,000"
  else none

/-- Embedding of `calculate_funding_eligibility`.  `municipality_population`
and `region` are `Optional[str]` in the source; Python truthiness of an
optional string (`None` and `""` falsy) is modelled explicitly. -/
def calculate_funding_eligibility (applicant_type : String)
    (municipality_population : Option String) (region : Option String) :
    FundingInfo :=
  let applicant_type_display :=
    (applicantTypeDisplays applicant_type).getD applicant_type
  let municipality_population_display :=
    match municipality_population with
    | some p =>
      if p ≠ "" then (municipalityPopulationDisplays p).getD p else ""
    | none => ""
  let funding_percentage : Nat :=
    if region = some "north" then 75
    else if region = some "south" then
      if applicant_type = "indigenous" then 75
      else if applicant_type = "municipality" then
        if municipality_population = some "below-170k" then 75
        else if municipality_population = some "above-170k" then 50
        else 0
      else if applicant_type = "business" then 50
      else 0
    else 0
  { applicant_type := applicant_type,
    applicant_type_display := applicant_type_display,
    municipality_population := municipality_population,
    municipality_population_display := municipality_population_display,
    funding_percentage := funding_percentage,
    region := region }

/-- The funding percentage of claim C1, written from the claim's
precedence table, evaluated top to bottom with first match winning; every
unmatched combination (including an absent region) yields the default 0. -/
def c1SpecPercentage (t : String) (p : Option String) (r : Option String) :
    Nat :=
  if r = some "north" then 75
  else if r = some "south" ∧ t = "indigenous" then 75
  else if r = some "south" ∧ t = "municipality" ∧ p = some "below-170k" then 75
  else if r = some "south" ∧ t = "municipality" ∧ p = some "above-170k" then 50
  else if r = some "south" ∧ t = "business" then 50
  else 0

/-- C1: for every applicant category, population bracket and region,
`calculate_funding_eligibility` returns exactly the percentage given by
the precedence table of the claim (first match wins, default 0), so in
particular the function is total. -/
theorem c1_funding_percentage_matches_precedence_table (t : String)
    (p : Option String) (r : Option String) :
    (calculate_funding_eligibility t p r).funding_percentage =
      c1SpecPercentage t p r := by
  unfold calculate_funding_eligibility c1SpecPercentage
  by_cases hn : r = some "north"
  · simp [hn]
  · by_cases hs : r = some "south"
    · by_cases hi : t = "indigenous" <;>
        by_cases hm : t = "municipality" <;>
          by_cases hb : t = "business" <;>
            by_cases hpb : p = some "below-170k" <;>
              by_cases hpa : p = some "above-170k" <;>
                simp_all
    · simp [hn, hs]

/-- C10: the funding percentage is always one of 0, 50, 75, and the
result echoes the applicant category, population bracket and region
inputs unchanged. -/
theorem c10_funding_percentage_range_and_echo (t : String)
    (p : Option String) (r : Option String) :
    ((calculate_funding_eligibility t p r).funding_percentage = 0 ∨
      (calculate_funding_eligibility t p r).funding_percentage = 50 ∨
      (calculate_funding_eligibility t p r).funding_percentage = 75) ∧
    (calculate_funding_eligibility t p r).applicant_type = t ∧
    (calculate_funding_eligibility t p r).municipality_population = p ∧
    (calculate_funding_eligibility t p r).region = r := by
  refine ⟨?_, rfl, rfl, rfl⟩
  unfold calculate_funding_eligibility
  dsimp only
  split_ifs <;> simp

/-- C9: display labels come from the two fixed enumeration-to-label
tables, and an unrecognized category or bracket value passes through
unchanged as its own display label (no error is raised: the function is
total). -/
theorem c9_display_labels_tables_and_passthrough (t v : String)
    (p : Option String) (r : Option String) :
    (calculate_funding_eligibility "indigenous" p r).applicant_type_display =
      "Indigenous community or business" ∧
    (calculate_funding_eligibility "municipality" p r).applicant_type_display =
      "Municipalities" ∧
    (calculate_funding_eligibility "business" p r).applicant_type_display =
      "Businesses, not for profit corporations, and broader public sector" ∧
    (calculate_funding_eligibility t (some "below-170k") r).municipality_population_display =
      "Below 170,000" ∧
    (calculate_funding_eligibility t (some "above-170k") r).municipality_population_display =
      "Above 170,000" ∧
    (t ≠ "indigenous" → t ≠ "municipality" → t ≠ "business" →
      (calculate_funding_eligibility t p r).applicant_type_display = t) ∧
    (v ≠ "below-170k" → v ≠ "above-170k" →
      (calculate_funding_eligibility t (some v) r).municipality_population_display = v) := by
  refine ⟨rfl, rfl, rfl, rfl, rfl, ?_, ?_⟩
  · intro h1 h2 h3
    simp [calculate_funding_eligibility, applicantTypeDisplays, h1, h2, h3]
  · intro h1 h2
    by_cases hv : v = ""
    · simp [calculate_funding_eligibility, hv]
    · simp [calculate_funding_eligibility, municipalityPopulationDisplays,
        h1, h2, hv]

/-! ## `geocode_address` (src/app.py lines 65-176)

The Nominatim collaborator is an oracle `String → GeoResp`: `GeoResp.err`
stands for any interaction whose try-block raises (network error,
malformed response, missing numeric fields) -- in the source every such
exception is caught and the loop advances -- and `GeoResp.ok hits` for a
parsed JSON result list.  A hit carries its numeric coordinates and the
structured address fields; a missing string field is modelled as `""`,
matching Python truthiness of `address_details.get(..., '')` and of the
`or` chains in the source. -/

/-- One Nominatim result, already parsed. -/
structure GeoHit where
  lat : ℚ
  lon : ℚ
  house_number : String := ""
  road : String := ""
  city : String := ""
  town : String := ""
  village : String := ""
  municipality : String := ""
  display_name : Option String := none
deriving DecidableEq, Repr

/-- Outcome of one geocoding request. -/
inductive GeoResp where
  | err : GeoResp
  | ok : List GeoHit → GeoResp
deriving DecidableEq, Repr

/-- The `address_variations` list built at src/app.py lines 78-83. -/
def addressVariations (address : String) : List String :=
  [address,
   address ++ ", Ontario, Canada",
   address ++ ", ON, Canada",
   pyStrip (removeCommas address)]

/-- The loop of src/app.py lines 149-154: walk the first segments of the
display name, keep a segment unless it is the province or country name,
stop as soon as two segments are kept. -/
def collectSegs : List String → List String → List String
  | [], acc => acc
  | p :: ps, acc =>
    let acc' := if ["ontario", "canada", "on"].contains (pyLower p) then acc
                else acc ++ [p]
    if 2 ≤ acc'.length then acc' else collectSegs ps acc'

/-- The display-name fallback of src/app.py lines 143-157. -/
def codeShorten (display_name : String) : String :=
  let parts := pySplitCS display_name
  if 2 < parts.length then
    let kept := collectSegs (parts.take 4) []
    if kept = [] then display_name else joinCS kept
  else display_name

/-- The simplified-address construction of src/app.py lines 116-157. -/
def simplifyAddress (h : GeoHit) (address : String) : String :=
  let street : List String :=
    if h.house_number ≠ "" ∧ h.road ≠ "" then [h.house_number ++ " " ++ h.road]
    else if h.road ≠ "" then [h.road]
    else []
  let city :=
    if h.city ≠ "" then h.city
    else if h.town ≠ "" then h.town
    else if h.village ≠ "" then h.village
    else h.municipality
  let address_parts := street ++ (if city ≠ "" then [city] else [])
  if address_parts = [] then codeShorten (h.display_name.getD address)
  else joinCS address_parts

/-- The variant loop of `geocode_address` (src/app.py lines 85-176),
instrumented with the number of geocoding requests issued.  A variant
whose response is `err` or an empty result list advances the loop; the
first non-empty result list wins and its top hit is normalized. -/
def geoLoop (g : String → GeoResp) (address : String) :
    List String → Nat → Option (ℚ × ℚ × String) × Nat
  | [], n => (none, n)
  | v :: vs, n =>
    match g v with
    | GeoResp.ok (h :: _) =>
      (some (h.lat, h.lon, simplifyAddress h address), n + 1)
    | _ => geoLoop g address vs (n + 1)

/-- Embedding of `geocode_address`, paired with the number of requests
issued. -/
def geocodeAddressC (g : String → GeoResp) (address : String) :
    Option (ℚ × ℚ × String) × Nat :=
  geoLoop g address (addressVariations address) 0

/-- Embedding of `geocode_address` (result only). -/
def geocode_address (g : String → GeoResp) (address : String) :
    Option (ℚ × ℚ × String) :=
  (geocodeAddressC g address).1

/-! ## Claim C2: variant order and fallback -/

/-- A per-variant failure in the sense of claim C2: a raised exception of
any kind or an empty result set. -/
def variantFailed (resp : GeoResp) : Prop :=
  resp = GeoResp.err ∨ resp = GeoResp.ok []

/-- The four query variants exactly as claim C2 states them; its fourth
variant is the raw string with all commas removed, without the trailing
`strip()` the source applies. -/
def c2ClaimVariants (address : String) : List String :=
  [address,
   address ++ ", Ontario, Canada",
   address ++ ", ON, Canada",
   removeCommas address]

/-- The four query variants of the amended claim C2: as the source builds
them, the fourth variant additionally strips surrounding whitespace. -/
def c2AmendedVariants (address : String) : List String :=
  [address,
   address ++ ", Ontario, Canada",
   address ++ ", ON, Canada",
   pyStrip (removeCommas address)]

/-- Spec-side scan, written from the words of claim C2: issue the
variants strictly in order, advance past every failed variant, stop at
the first variant returning at least one result (its first hit wins),
and report the number of queries issued. -/
def c2Scan (g : String → GeoResp) : List String → Nat → Option GeoHit × Nat
  | [], n => (none, n)
  | v :: vs, n =>
    match g v with
    | GeoResp.ok (h :: _) => (some h, n + 1)
    | _ => c2Scan g vs (n + 1)

/-- The guidance text returned when every variant fails
(src/app.py lines 360-362). -/
def unresolvableMsg : String :=
  "Could not geocode the provided location. Please try:\n" ++
  "• Adding \"Ontario, Canada\" to your address\n" ++
  "• Using a more specific address (e.g., \"123 Main Street, Toronto, ON\")\n" ++
  "• Checking the spelling of your address\n" ++
  "• Using coordinates in the format \"latitude, longitude\""

/-- Input-kind tag of a resolved location. -/
inductive InputKind where
  | coordinates : InputKind
  | address : InputKind
deriving DecidableEq, Repr

/-- The resolution step of the `/api/geocode` handler
(src/app.py lines 349-366), instrumented with the number of geocoding
requests issued: coordinates are tried first and return immediately;
only on parse failure is the geocoder queried. -/
def resolveLocationC (g : String → GeoResp) (location_input : String) :
    Except String (ℚ × ℚ × InputKind × Option String) × Nat :=
  match parse_coordinates location_input with
  | some (lat, lon) => (Except.ok (lat, lon, InputKind.coordinates, none), 0)
  | none =>
    match geocodeAddressC g location_input with
    | (none, n) => (Except.error unresolvableMsg, n)
    | (some (lat, lon, disp), n) =>
      (Except.ok (lat, lon, InputKind.address, some disp), n)

theorem geoLoop_eq_c2Scan (g : String → GeoResp) (address : String) :
    ∀ (vs : List String) (n : Nat),
      geoLoop g address vs n =
        ((c2Scan g vs n).1.map
          (fun h => (h.lat, h.lon, simplifyAddress h address)),
         (c2Scan g vs n).2) := by
  intro vs
  induction vs with
  | nil => intro n; rfl
  | cons v vs ih =>
    intro n
    cases hv : g v with
    | err => simpa [geoLoop, c2Scan, hv] using ih (n + 1)
    | ok hits =>
      cases hits with
      | nil => simpa [geoLoop, c2Scan, hv] using ih (n + 1)
      | cons h rest => simp [geoLoop, c2Scan, hv]

theorem c2Scan_all_failed (g : String → GeoResp) :
    ∀ (vs : List String) (n : Nat),
      (∀ v ∈ vs, variantFailed (g v)) → c2Scan g vs n = (none, n + vs.length) := by
  intro vs
  induction vs with
  | nil => intro n _; rfl
  | cons v vs ih =>
    intro n hall
    rcases hall v (by simp) with hv | hv <;>
      · rw [c2Scan, hv]
        rw [ih (n + 1) (fun u hu => hall u (by simp [hu]))]
        simp
        omega

theorem geoLoop_none_all_failed (g : String → GeoResp) (address : String) :
    ∀ (vs : List String) (n : Nat),
      (geoLoop g address vs n).1 = none → ∀ v ∈ vs, variantFailed (g v) := by
  intro vs
  induction vs with
  | nil => intro n _ v hv; cases hv
  | cons v vs ih =>
    intro n hnone u hu
    rw [List.mem_cons] at hu
    cases hv : g v with
    | err =>
      rcases hu with rfl | hu
      · exact Or.inl hv
      · rw [geoLoop, hv] at hnone
        exact ih (n + 1) hnone u hu
    | ok hits =>
      cases hits with
      | nil =>
        rcases hu with rfl | hu
        · exact Or.inr hv
        · rw [geoLoop, hv] at hnone
          exact ih (n + 1) hnone u hu
      | cons h rest =>
        rw [geoLoop, hv] at hnone
        cases hnone

/-- C2 (amended): `geocode_address` tries exactly the four variants of
the amended claim (raw; with ", Ontario, Canada"; with ", ON, Canada";
with all commas removed and surrounding whitespace stripped) strictly in
that order; every failed variant (error or empty result set) advances the
loop; the first variant with at least one result wins (a collaborator
failing variants 1 and 2 and succeeding on variant 3 is queried exactly
three times); and only when all four variants are exhausted does
resolution fail, with the guidance text of `UnresolvableLocation`. -/
theorem c2_variant_order_and_first_success (g : String → GeoResp)
    (address : String) :
    addressVariations address = c2AmendedVariants address ∧
    geocodeAddressC g address =
      ((c2Scan g (c2AmendedVariants address) 0).1.map
        (fun h => (h.lat, h.lon, simplifyAddress h address)),
       (c2Scan g (c2AmendedVariants address) 0).2) ∧
    (∀ h rest,
      variantFailed (g address) →
      variantFailed (g (address ++ ", Ontario, Canada")) →
      g (address ++ ", ON, Canada") = GeoResp.ok (h :: rest) →
      geocodeAddressC g address =
        (some (h.lat, h.lon, simplifyAddress h address), 3)) ∧
    ((∀ v ∈ addressVariations address, variantFailed (g v)) →
      geocodeAddressC g address = (none, 4) ∧
      (parse_coordinates address = none →
        resolveLocationC g address = (Except.error unresolvableMsg, 4))) ∧
    (geocode_address g address = none →
      ∀ v ∈ addressVariations address, variantFailed (g v)) := by
  refine ⟨rfl, ?_, ?_, ?_, ?_⟩
  · exact geoLoop_eq_c2Scan g address (addressVariations address) 0
  · intro h rest h1 h2 h3
    unfold geocodeAddressC addressVariations
    rcases h1 with h1 | h1 <;> rcases h2 with h2 | h2 <;>
      simp [geoLoop, h1, h2, h3]
  · intro hall
    have hfour : geocodeAddressC g address = (none, 4) := by
      have := c2Scan_all_failed g (addressVariations address) 0 hall
      rw [geocodeAddressC, geoLoop_eq_c2Scan, this]
      rfl
    refine ⟨hfour, fun hparse => ?_⟩
    unfold resolveLocationC
    rw [hparse, hfour]
  · intro hnone
    exact geoLoop_none_all_failed g address (addressVariations address) 0 hnone

/-- C2, counterexample to the claim as stated: for the input
" Sudbury, " the fourth query string the source builds is "Sudbury"
(commas removed, then stripped), not the claim's " Sudbury " (commas
removed only), so the variant list differs from the claimed one. -/
theorem c2_counterexample_fourth_variant_is_stripped :
    addressVariations " Sudbury, " ≠ c2ClaimVariants " Sudbury, " := by
  decide

theorem geoLoop_count_le (g : String → GeoResp) (address : String) :
    ∀ (vs : List String) (n : Nat), n ≤ (geoLoop g address vs n).2 := by
  intro vs
  induction vs with
  | nil => intro n; exact Nat.le_refl n
  | cons v vs ih =>
    intro n
    cases hv : g v with
    | err =>
      rw [geoLoop, hv]
      exact Nat.le_trans (Nat.le_succ n) (ih (n + 1))
    | ok hits =>
      cases hits with
      | nil =>
        rw [geoLoop, hv]
        exact Nat.le_trans (Nat.le_succ n) (ih (n + 1))
      | cons h rest =>
        rw [geoLoop, hv]
        exact Nat.le_succ n

theorem geocodeAddressC_count_pos (g : String → GeoResp) (s : String) :
    1 ≤ (geocodeAddressC g s).2 := by
  unfold geocodeAddressC addressVariations
  cases hv : g s with
  | err =>
    rw [geoLoop, hv]
    exact Nat.le_trans (Nat.le_refl 1) (geoLoop_count_le g s _ 1)
  | ok hits =>
    cases hits with
    | nil =>
      rw [geoLoop, hv]
      exact Nat.le_trans (Nat.le_refl 1) (geoLoop_count_le g s _ 1)
    | cons h rest =>
      rw [geoLoop, hv]

/-- C7: an input accepted by `parse_coordinates` resolves immediately
with input kind `coordinates`, no display label and zero geocoding
requests (the result does not depend on the geocoder at all); the
geocoder is queried only when coordinate parsing fails, and then a
successful resolution carries input kind `address`. -/
theorem c7_coordinates_bypass_geocoder (s : String) :
    (∀ lat lon (g : String → GeoResp), parse_coordinates s = some (lat, lon) →
      resolveLocationC g s =
        (Except.ok (lat, lon, InputKind.coordinates, none), 0)) ∧
    (parse_coordinates s = none → ∀ g : String → GeoResp,
      1 ≤ (resolveLocationC g s).2 ∧
      (∀ lat lon k d n,
        resolveLocationC g s = (Except.ok (lat, lon, k, d), n) →
        k = InputKind.address)) := by
  constructor
  · intro lat lon g hp
    unfold resolveLocationC
    rw [hp]
  · intro hn g
    have hcount := geocodeAddressC_count_pos g s
    unfold resolveLocationC
    rw [hn]
    rcases hg : geocodeAddressC g s with ⟨o, n⟩
    rw [hg] at hcount
    cases o with
    | none => exact ⟨hcount, fun lat lon k d m hcontra => by cases hcontra⟩
    | some trip =>
      rcases trip with ⟨lat0, lon0, disp⟩
      refine ⟨hcount, ?_⟩
      intro lat lon k d m heq
      rw [Prod.mk.injEq] at heq
      rcases heq with ⟨heq1, _⟩
      cases heq1
      rfl

/-! ## Claim C6: display-label construction -/

/-- Whether a display-name segment is discarded: it equals the province
or country designation (Ontario, Canada, or the ON abbreviation)
case-insensitively. -/
def segDiscarded (p : String) : Bool :=
  ["ontario", "canada", "on"].contains (pyLower p)

/-- The display-string shortening as claim C6 words it: split on comma
segments, scan at most the first four raw segments, discard segments
equal case-insensitively to the province or country name, keep at most
the first two remaining meaningful segments; when the display string has
at most two segments, or nothing meaningful remains, the full display
string is used unshortened. -/
def c6Shorten (display_name : String) : String :=
  let parts := pySplitCS display_name
  if 2 < parts.length then
    let kept := ((parts.take 4).filter (fun p => !segDiscarded p)).take 2
    if kept = [] then display_name else joinCS kept
  else display_name

/-- First nonempty field of a list (the `or` chain over city-like
fields). -/
def firstNonempty : List String → Option String
  | [] => none
  | s :: ss => if s ≠ "" then some s else firstNonempty ss

/-- The label construction exactly as claim C6 states it, with the
city-like field chosen by first match among town, city, village,
municipality IN THAT ORDER (the claimed priority). -/
def c6ClaimLabel (h : GeoHit) (address : String) : String :=
  let street : Option String :=
    if h.house_number ≠ "" ∧ h.road ≠ "" then some (h.house_number ++ " " ++ h.road)
    else if h.road ≠ "" then some h.road
    else none
  let cityLike := firstNonempty [h.town, h.city, h.village, h.municipality]
  match street, cityLike with
  | some s, some c => s ++ ", " ++ c
  | some s, none => s
  | none, some c => c
  | none, none => c6Shorten (h.display_name.getD address)

/-- The label construction of the amended claim C6: as the source has it,
the city-like field is chosen by first match among city, town, village,
municipality in that order. -/
def c6AmendedLabel (h : GeoHit) (address : String) : String :=
  let street : Option String :=
    if h.house_number ≠ "" ∧ h.road ≠ "" then some (h.house_number ++ " " ++ h.road)
    else if h.road ≠ "" then some h.road
    else none
  let cityLike := firstNonempty [h.city, h.town, h.village, h.municipality]
  match street, cityLike with
  | some s, some c => s ++ ", " ++ c
  | some s, none => s
  | none, some c => c
  | none, none => c6Shorten (h.display_name.getD address)

theorem collectSegs_eq_filter_take (ps : List String) :
    ∀ acc : List String, acc.length < 2 →
      collectSegs ps acc = (acc ++ ps.filter (fun p => !segDiscarded p)).take 2 := by
  induction ps with
  | nil =>
    intro acc hlt
    rw [collectSegs]
    rw [List.filter_nil, List.append_nil, List.take_of_length_le (Nat.le_of_lt hlt)]
  | cons p ps ih =>
    intro acc hlt
    rw [collectSegs]
    by_cases hd : segDiscarded p
    · have hsk : ["ontario", "canada", "on"].contains (pyLower p) = true := hd
      rw [if_pos hsk]
      have : ¬ 2 ≤ acc.length := Nat.not_le_of_lt hlt
      rw [if_neg this]
      rw [ih acc hlt]
      have : List.filter (fun p => !segDiscarded p) (p :: ps) =
          List.filter (fun p => !segDiscarded p) ps := by
        rw [List.filter_cons_of_neg]
        simp [hd]
      rw [this]
    · have hsk : ¬ (["ontario", "canada", "on"].contains (pyLower p) = true) := hd
      rw [if_neg hsk]
      have hfil : List.filter (fun p => !segDiscarded p) (p :: ps) =
          p :: List.filter (fun p => !segDiscarded p) ps := by
        rw [List.filter_cons_of_pos]
        simp [hd]
      rw [hfil]
      rcases acc with _ | ⟨a, _ | ⟨b, rest⟩⟩
      · have h1 : ¬ 2 ≤ ([] ++ [p] : List String).length := by simp
        rw [if_neg h1, List.nil_append]
        rw [ih [p] (by simp)]
        rfl
      · have h1 : (2 : Nat) ≤ ([a] ++ [p] : List String).length := by simp
        rw [if_pos h1]
        rfl
      · exact absurd hlt (by simp)

theorem codeShorten_eq_c6Shorten (dn : String) :
    codeShorten dn = c6Shorten dn := by
  simp only [codeShorten, c6Shorten]
  rw [collectSegs_eq_filter_take _ [] (by simp), List.nil_append]

theorem simplifyAddress_eq_c6AmendedLabel (h : GeoHit) (address : String) :
    simplifyAddress h address = c6AmendedLabel h address := by
  by_cases h1 : h.house_number = "" <;> by_cases h2 : h.road = "" <;>
    by_cases h3 : h.city = "" <;> by_cases h4 : h.town = "" <;>
      by_cases h5 : h.village = "" <;> by_cases h6 : h.municipality = "" <;>
        simp [simplifyAddress, c6AmendedLabel, firstNonempty, joinCS,
          h1, h2, h3, h4, h5, h6, codeShorten_eq_c6Shorten]

/-- C6 (amended): the display label is built exactly as the claim states
except that the city-like field is chosen by first match among city,
town, village, municipality in that order (the source consults `city`
before `town`); in particular the structured response with house number
123, road Main Street and city Toronto yields "123 Main Street,
Toronto". -/
theorem c6_display_label_construction (h : GeoHit) (address : String) :
    simplifyAddress h address = c6AmendedLabel h address ∧
    simplifyAddress
      { lat := 0, lon := 0, house_number := "123", road := "Main Street",
        city := "Toronto" } "x" = "123 Main Street, Toronto" :=
  ⟨simplifyAddress_eq_c6AmendedLabel h address, by decide⟩

/-- Concrete hit on which the claimed town-before-city priority differs
from the source. -/
def c6CounterHit : GeoHit :=
  { lat := 0, lon := 0, road := "Main Street", city := "Toronto",
    town := "Oakville" }

/-- C6, counterexample to the claim as stated: with both a town and a
city present the source picks the city ("Main Street, Toronto"), while
the claimed town-first priority would pick the town ("Main Street,
Oakville"). -/
theorem c6_counterexample_city_chosen_over_town :
    simplifyAddress c6CounterHit "q" = "Main Street, Toronto" ∧
    c6ClaimLabel c6CounterHit "q" = "Main Street, Oakville" ∧
    simplifyAddress c6CounterHit "q" ≠ c6ClaimLabel c6CounterHit "q" := by
  decide

/-! ## `point_in_region` (src/app.py lines 247-274) and the GeoJSON load

The Shapely geometry library is the external collaborator here: a loaded
feature carries its polygon as an abstract containment predicate on
points, where a point is an (x, y) = (longitude, latitude) pair and the
predicate is `polygon.contains`, Shapely's strict containment.  The
GeoJSON load is an explicit `Except` value: `error` models
`load_geojson_data` raising (missing file, invalid JSON); a document
whose `features` member is `none` models valid JSON without a
`features` key (the `KeyError` case).  In the source, any exception
inside `point_in_region` is caught by the blanket handler and turned
into `None`. -/

/-- The dictionary returned for a matched region. -/
structure RegionInfo where
  region : String
  name : String
  description : String
deriving DecidableEq, Repr

/-- One loaded GeoJSON feature: properties plus its polygon as the
collaborator's containment predicate over (lon, lat) points. -/
structure RegionFeature where
  region : String
  name : String
  description : String
  geometryContains : ℚ × ℚ → Bool

/-- The loaded GeoJSON document; `features = none` models a document
without a `features` member. -/
structure GeoJson where
  features : Option (List RegionFeature)

/-- The region dictionary built from a matched feature
(src/app.py lines 265-269). -/
def mkInfo (f : RegionFeature) : RegionInfo :=
  { region := f.region, name := f.name, description := f.description }

/-- Embedding of `point_in_region`: any load failure or missing
`features` member is caught by the blanket `except` and becomes `None`;
otherwise the features are scanned in stored order with the point
`(lon, lat)` and the first containing feature wins. -/
def point_in_region (load : Except String GeoJson) (lat lon : ℚ) :
    Option RegionInfo :=
  match load with
  | Except.error _ => none
  | Except.ok doc =>
    match doc.features with
    | none => none
    | some fs =>
      (fs.find? (fun f => f.geometryContains (lon, lat))).map mkInfo

/-- C3: `point_in_region` builds the point with axis order (longitude,
latitude), scans the stored feature list in order, returns the first
feature whose polygon contains the point, and returns `none` when no
loaded polygon contains the point -- a point lying in zero polygons is
never classified into a region. -/
theorem c3_point_in_region_first_containing_feature
    (fs : List RegionFeature) (lat lon : ℚ) :
    (∀ info,
      point_in_region (Except.ok { features := some fs }) lat lon = some info ↔
      ∃ i : Fin fs.length,
        (fs.get i).geometryContains (lon, lat) = true ∧
        (∀ j : Fin fs.length, (j : ℕ) < (i : ℕ) →
          (fs.get j).geometryContains (lon, lat) = false) ∧
        info = mkInfo (fs.get i)) ∧
    ((∀ f ∈ fs, f.geometryContains (lon, lat) = false) →
      point_in_region (Except.ok { features := some fs }) lat lon = none) := by
  constructor
  · intro info
    show (fs.find? (fun f => f.geometryContains (lon, lat))).map mkInfo
        = some info ↔ _
    rw [Option.map_eq_some']
    constructor
    · rintro ⟨f, hfind, rfl⟩
      rw [List.find?_eq_some_iff_getElem] at hfind
      rcases hfind with ⟨hpf, i, hi, hif, hbefore⟩
      refine ⟨⟨i, hi⟩, ?_, ?_, ?_⟩
      · rw [List.get_eq_getElem]
        simpa [hif] using hpf
      · intro j hj
        have := hbefore (j : ℕ) hj
        rw [List.get_eq_getElem]
        simpa using this
      · rw [List.get_eq_getElem, hif]
    · rintro ⟨i, hp, hfirst, rfl⟩
      refine ⟨fs.get i, ?_, rfl⟩
      rw [List.find?_eq_some_iff_getElem]
      refine ⟨hp, i, i.isLt, ?_, ?_⟩
      · rw [List.get_eq_getElem]
      · intro j hj
        have hjlen : j < fs.length := Nat.lt_trans hj i.isLt
        have := hfirst ⟨j, hjlen⟩ hj
        rw [List.get_eq_getElem] at this
        simpa using this
  · intro hnone
    show (fs.find? (fun f => f.geometryContains (lon, lat))).map mkInfo = none
    rw [Option.map_eq_none', List.find?_eq_none]
    intro f hf
    simp [hnone f hf]

/-- C4: the source does NOT satisfy this claim -- a missing data file,
invalid JSON, or a structurally malformed document (valid JSON without a
`features` member, which passes the eager startup load) all make
`point_in_region` return `None`, the very same result as a point outside
all regions, instead of a distinct region-data-unavailable error. -/
theorem c4_load_failure_downgraded_to_no_region :
    point_in_region (Except.error "ontario_regions.geojson file not found")
      (mkRat 4365 100) (mkRat (-7938) 100) = none ∧
    point_in_region (Except.ok { features := none })
      (mkRat 4365 100) (mkRat (-7938) 100) = none ∧
    point_in_region (Except.ok { features := some [] })
      (mkRat 4365 100) (mkRat (-7938) 100) = none :=
  ⟨rfl, rfl, rfl⟩

/-! ## The `/api/geocode` handler (src/app.py lines 286-400) -/

/-- The JSON request body fields the handler reads; `none` models an
absent key (or an absent/`null` body for `location`). -/
structure Request where
  location : Option String
  applicant_type : Option String
  municipality_population : Option String
deriving DecidableEq, Repr

/-- Python truthiness of an optional string: `None` and `""` are falsy. -/
def optTruthy : Option String → Bool
  | none => false
  | some s => !(s == "")

/-- The validation prefix of the handler (src/app.py lines 321-347),
returning the first error message, or `none` when validation passes. -/
def validateRequest (r : Request) : Option String :=
  match r.location with
  | none => some "Location parameter is required"
  | some loc0 =>
    if pyStrip loc0 = "" then some "Location cannot be empty"
    else
      match r.applicant_type with
      | none => some "Applicant type is required"
      | some t =>
        if t = "" then some "Applicant type is required"
        else if ¬ (t = "indigenous" ∨ t = "municipality" ∨ t = "business") then
          some "Invalid applicant type"
        else if t = "municipality" then
          if optTruthy r.municipality_population = false then
            some "Municipality population is required for municipality applicants"
          else if ¬ (r.municipality_population = some "below-170k" ∨
              r.municipality_population = some "above-170k") then
            some "Invalid municipality population size"
          else none
        else none

/-- The successful response body of the handler. -/
structure GeocodeResponse where
  latitude : ℚ
  longitude : ℚ
  region : Option RegionInfo
  input_type : InputKind
  display_address : Option String
  message : String
  funding_info : FundingInfo

/-- Composition of region classification and funding calculation into
the response (src/app.py lines 368-396). -/
def buildResponse (load : Except String GeoJson) (lat lon : ℚ)
    (kind : InputKind) (disp : Option String) (applicant_type : String)
    (pop : Option String) : GeocodeResponse :=
  let region_info := point_in_region load lat lon
  let region_name := region_info.map (fun ri => ri.region)
  let funding_info := calculate_funding_eligibility applicant_type pop region_name
  match region_info with
  | none =>
    { latitude := lat, longitude := lon, region := none, input_type := kind,
      display_address := disp,
      message := "This location is outside of Ontario or in an unmapped area.",
      funding_info := funding_info }
  | some ri =>
    { latitude := lat, longitude := lon, region := some ri, input_type := kind,
      display_address := disp,
      message := "This location is in " ++ ri.name ++ ".",
      funding_info := funding_info }

/-- Embedding of the handler: validation first, then resolution on the
stripped location text, then region classification and funding; paired
with the number of geocoding requests issued. -/
def handleRequestC (g : String → GeoResp) (load : Except String GeoJson)
    (r : Request) : Except String GeocodeResponse × Nat :=
  match validateRequest r with
  | some e => (Except.error e, 0)
  | none =>
    match r.location, r.applicant_type with
    | some loc0, some t =>
      match resolveLocationC g (pyStrip loc0) with
      | (Except.error e, n) => (Except.error e, n)
      | (Except.ok (lat, lon, kind, disp), n) =>
        (Except.ok
          (buildResponse load lat lon kind disp t r.municipality_population), n)
    | _, _ => (Except.error "unreachable", 0)

/-- C8: validation passes exactly when the location text is present and
nonempty and the applicant category is present and recognized, with the
population bracket required to be one of the two recognized values when
and only when the category is "municipality" (for any other category the
bracket is unconstrained); and any validation error is returned before
any resolution work, with zero geocoding requests, independently of the
geocoder and region data. -/
theorem c8_validation_rules_and_short_circuit (r : Request) :
    (validateRequest r = none ↔
      (∃ loc, r.location = some loc ∧ pyStrip loc ≠ "") ∧
      (∃ t, r.applicant_type = some t ∧
        (t = "indigenous" ∨ t = "municipality" ∨ t = "business") ∧
        (t = "municipality" →
          r.municipality_population = some "below-170k" ∨
          r.municipality_population = some "above-170k"))) ∧
    (∀ e, validateRequest r = some e →
      ∀ (g : String → GeoResp) (load : Except String GeoJson),
        handleRequestC g load r = (Except.error e, 0)) := by
  constructor
  · rcases r with ⟨loc, at0, pop⟩
    cases loc with
    | none => simp [validateRequest]
    | some loc0 =>
      unfold validateRequest
      dsimp only
      by_cases hloc : pyStrip loc0 = ""
      · simp [hloc]
      · rw [if_neg hloc]
        cases at0 with
        | none => simp [hloc]
        | some t =>
          dsimp only
          by_cases ht0 : t = ""
          · rw [if_pos ht0]
            simp [hloc, ht0]
          · rw [if_neg ht0]
            by_cases htv : t = "indigenous" ∨ t = "municipality" ∨ t = "business"
            · rw [if_neg (not_not.mpr htv)]
              by_cases hm : t = "municipality"
              · rw [if_pos hm]
                by_cases hpt : optTruthy pop = false
                · rw [if_pos hpt]
                  cases pop with
                  | none => simp [hloc, htv, hm]
                  | some p =>
                    have hp0 : p = "" := by
                      simpa [optTruthy] using hpt
                    simp [hloc, htv, hm, hp0]
                · rw [if_neg hpt]
                  by_cases hpv : pop = some "below-170k" ∨ pop = some "above-170k"
                  · rw [if_neg (not_not.mpr hpv)]
                    simp [hloc, htv, hm, hpv]
                  · rw [if_pos (by simpa using hpv)]
                    simp [hloc, htv, hm, hpv]
              · rw [if_neg hm]
                rcases htv with h | h | h
                · simp [hloc, hm, h]
                · exact absurd h hm
                · simp [hloc, hm, h]
            · rw [if_pos (by simpa using htv)]
              simp [hloc, htv]
  · intro e he g load
    unfold handleRequestC
    rw [he]
